import Mathlib

/-!
Verification of the crypto-wallet dashboard core: a shallow embedding of the
mock price store (src/web/src/services/prices.mock.ts) and of the dashboard
valuation pipeline (DashboardPage). JavaScript numbers are modelled as exact
rationals; the two calls to randBetween inside refreshMockPrices are modelled
as explicit per-symbol parameters (driftPct, delta) so that every sampled
outcome is covered by universal quantification.
-/

/-- PricePoint from prices.mock.ts: symbol, price (in ZAR) and 24h change
percentage. -/
structure PricePoint where
  symbol : String
  price : ℚ
  change24hPct : ℚ
deriving DecidableEq

/-- PriceMap = Record from symbol to PricePoint, modelled as an association
list; key order models the insertion order that Object.keys observes. -/
abbrev PriceMap := List (String × PricePoint)

/-- round2 from prices.mock.ts: Math.round(n * 100) / 100, where Math.round
is half-up rounding (floor of the argument plus one half). -/
def round2 (n : ℚ) : ℚ := ((⌊n * 100 + 1 / 2⌋ : ℤ) : ℚ) / 100

/-- The module-scoped initial state of prices.mock.ts. -/
def initialState : PriceMap :=
  [ ("BTC", { symbol := "BTC", price := 1185000, change24hPct := 1.42 })
  , ("ETH", { symbol := "ETH", price := 62450, change24hPct := -0.85 })
  , ("SOL", { symbol := "SOL", price := 3250, change24hPct := 3.12 })
  , ("XRP", { symbol := "XRP", price := 11.8, change24hPct := 0.24 }) ]

/-- getMockPrices: returns a shallow copy of state and leaves the store
untouched. The result pair is (returned snapshot, store state afterwards);
with value semantics the copy spread of state is state itself. The function
is total: it never fails. -/
def getMockPrices (state : PriceMap) : PriceMap × PriceMap := (state, state)

/-- refreshMockPrices: for each symbol of the current state, drift the price
by driftPct (the sampled randBetween(-1.2, 1.2)) and shift the 24h change by
delta (the sampled randBetween(-0.6, 0.6)), rounding both to 2 decimals.
The new map replaces the state wholesale and a copy of it is returned. -/
def refreshMockPrices (driftPct delta : String → ℚ) (state : PriceMap) : PriceMap :=
  state.map fun e =>
    ( e.1
    , { symbol := e.1
      , price := round2 (e.2.price * (1 + driftPct e.1 / 100))
      , change24hPct := round2 (e.2.change24hPct + delta e.1) } )

/-- Object.keys of a PriceMap. -/
def keys (m : PriceMap) : List String := m.map Prod.fst

/-- The store states reachable from the seeded initial state through the only
mutator, refreshMockPrices (getMockPrices leaves the state unchanged). -/
inductive Reachable : PriceMap → Prop
  | seed : Reachable initialState
  | advance (driftPct delta : String → ℚ) {m : PriceMap} :
      Reachable m → Reachable (refreshMockPrices driftPct delta m)

/-- Holding from DashboardPage. -/
structure Holding where
  id : String
  symbol : String
  name : String
  amount : ℚ
deriving DecidableEq

/-- The mocked in-app holdings list of DashboardPage. -/
def holdings : List Holding :=
  [ { id := "btc", symbol := "BTC", name := "Bitcoin", amount := 0.0523 }
  , { id := "eth", symbol := "ETH", name := "Ethereum", amount := 0.84 }
  , { id := "sol", symbol := "SOL", name := "Solana", amount := 12.4 }
  , { id := "xrp", symbol := "XRP", name := "XRP", amount := 580 } ]

/-- A derived row of the holdings table (the object literal returned by the
mapper inside rows). -/
structure Row where
  id : String
  symbol : String
  name : String
  amount : ℚ
  priceNow : ℚ
  change24hPct : ℚ
  valueNow : ℚ
  valueChange : ℚ
deriving DecidableEq

/-- The per-holding derivation of DashboardPage (body of the rows useMemo):
prices[h.symbol] is an association-list lookup; the nullish coalescing
p?.price ?? 0 and p?.change24hPct ?? 0 become Option.getD 0. -/
def deriveRow (prices : PriceMap) (h : Holding) : Row :=
  let p := prices.lookup h.symbol
  let priceNow : ℚ := (p.map PricePoint.price).getD 0
  let change24hPct : ℚ := (p.map PricePoint.change24hPct).getD 0
  let priceYesterday := priceNow / (1 + change24hPct / 100)
  let valueNow := h.amount * priceNow
  let valueYesterday := h.amount * priceYesterday
  let valueChange := valueNow - valueYesterday
  { id := h.id, symbol := h.symbol, name := h.name, amount := h.amount
  , priceNow := priceNow, change24hPct := change24hPct
  , valueNow := valueNow, valueChange := valueChange }

/-- rows: the holdings list mapped through the per-holding derivation. -/
def rows (hs : List Holding) (prices : PriceMap) : List Row :=
  hs.map (deriveRow prices)

/-- totalBalance: rows.reduce((sum, r) => sum + r.valueNow, 0). -/
def totalBalance (rs : List Row) : ℚ :=
  rs.foldl (fun sum r => sum + r.valueNow) 0

/-- dayChangeAmount: rows.reduce((sum, r) => sum + r.valueChange, 0). -/
def dayChangeAmount (rs : List Row) : ℚ :=
  rs.foldl (fun sum r => sum + r.valueChange) 0

/-- The yesterday accumulator computed inside the dayChangePct useMemo. -/
def yesterdayTotal (rs : List Row) : ℚ :=
  rs.foldl (fun sum r => sum + r.amount * (r.priceNow / (1 + r.change24hPct / 100))) 0

/-- dayChangePct: 0 when the yesterday total is nonpositive, otherwise the
relative day change in percent. -/
def dayChangePct (rs : List Row) : ℚ :=
  let yesterday := yesterdayTotal rs
  if yesterday ≤ 0 then 0 else (totalBalance rs - yesterday) / yesterday * 100

/-- clamp from DashboardPage: Math.max(lo, Math.min(hi, n)); the source names
the bounds min and max. -/
def clamp (n lo hi : ℚ) : ℚ := max lo (min hi n)

/-- The percentage actually rendered inside the day-change marker:
formatPct(clamp(dayChangePct, -99, 999)); formatPct itself is presentation
only, so the displayed numeric value is the clamp. -/
def displayedDayChangePct (rs : List Row) : ℚ :=
  clamp (dayChangePct rs) (-99) 999

/-- The denominator of the priceYesterday division in deriveRow. -/
def yesterdayDenom (change24hPct : ℚ) : ℚ := 1 + change24hPct / 100

/-- A guarded variant of the priceYesterday division, used only to express
that the division the code performs is undefined when its denominator is
zero; the code itself (deriveRow) performs the raw division with no such
guard. -/
def priceYesterdayChecked (priceNow change24hPct : ℚ) : Option ℚ :=
  if yesterdayDenom change24hPct = 0 then none
  else some (priceNow / yesterdayDenom change24hPct)

/-- The dashboard state touched by handleRefreshPrices: the prices useState
and the loadingPrices busy flag. -/
structure UiState where
  prices : PriceMap
  loadingPrices : Bool
deriving DecidableEq

/-- handleRefreshPrices, with the awaited outcome of refreshMockPrices passed
in as an Except (ok carries the returned map; error models a throw, which the
mock never produces but the try/finally is written to absorb). The result is
(state observed while the await is pending, state after the finally). -/
def handleRefreshPrices (adv : Except Unit PriceMap) (s : UiState) :
    UiState × UiState :=
  let sBusy := { s with loadingPrices := true }
  let sAfterTry :=
    match adv with
    | Except.ok next => { sBusy with prices := next }
    | Except.error _ => sBusy
  let sFinal := { sAfterTry with loadingPrices := false }
  (sBusy, sFinal)

/-- The refresh controls carry disabled := loadingPrices. -/
def refreshButtonDisabled (s : UiState) : Bool := s.loadingPrices

/-- Looking a symbol up in the refreshed map finds exactly the drifted and
rounded version of what the old map held for that symbol. -/
theorem lookup_refreshMockPrices (driftPct delta : String → ℚ) (state : PriceMap)
    (sym : String) :
    (refreshMockPrices driftPct delta state).lookup sym
      = (state.lookup sym).map fun c =>
          { symbol := sym
          , price := round2 (c.price * (1 + driftPct sym / 100))
          , change24hPct := round2 (c.change24hPct + delta sym) } := by
  induction state with
  | nil => rfl
  | cons e rest ih =>
      obtain ⟨k, v⟩ := e
      by_cases h : sym = k
      · subst h
        simp [refreshMockPrices, List.lookup]
      · have hb : (sym == k) = false := beq_eq_false_iff_ne.mpr h
        simpa [refreshMockPrices, List.lookup, hb] using ih

/-- refreshMockPrices builds the next map over exactly the keys of the old
state. -/
theorem keys_refreshMockPrices (driftPct delta : String → ℚ) (state : PriceMap) :
    keys (refreshMockPrices driftPct delta state) = keys state := by
  simp [keys, refreshMockPrices]

/-- Half-up rounding to 2 decimals moves a value by at most 1/200 = 0.005. -/
theorem abs_round2_sub_le (x : ℚ) : |round2 x - x| ≤ 1 / 200 := by
  have h1 : ((⌊x * 100 + 1 / 2⌋ : ℤ) : ℚ) ≤ x * 100 + 1 / 2 := Int.floor_le _
  have h2 : x * 100 + 1 / 2 - 1 < ((⌊x * 100 + 1 / 2⌋ : ℤ) : ℚ) := Int.sub_one_lt_floor _
  rw [abs_sub_le_iff]
  unfold round2
  constructor <;> linarith

/-- Every round2 result is an integer number of hundredths. -/
theorem round2_two_decimals (x : ℚ) : ∃ k : ℤ, round2 x = (k : ℚ) / 100 :=
  ⟨⌊x * 100 + 1 / 2⌋, rfl⟩

/-- A reduce of the shape (sum, r) => sum + f r starting from an accumulator
is that accumulator plus the sum of the mapped list. -/
theorem foldl_add_extract (f : α → ℚ) (l : List α) (init : ℚ) :
    l.foldl (fun sum x => sum + f x) init = init + (l.map f).sum := by
  induction l generalizing init with
  | nil => simp
  | cons x xs ih => simp [List.foldl, ih, List.sum_cons]; ring

/-- Claim C9: two consecutive getMockPrices calls with no intervening advance
return equal mappings, and getMockPrices leaves the store state unchanged
(and, being a total function, never fails). -/
theorem C9_snapshot_pure (s : PriceMap) :
    (getMockPrices s).1 = (getMockPrices (getMockPrices s).2).1 ∧
    (getMockPrices s).2 = s :=
  ⟨rfl, rfl⟩

/-- Claim C8: the row and aggregate derivations are pure functions of the
holdings list and the price snapshot: equal inputs give identical rows and
identical aggregates, with no hidden state or randomness. -/
theorem C8_derivation_deterministic (hs₁ hs₂ : List Holding) (m₁ m₂ : PriceMap)
    (hh : hs₁ = hs₂) (hm : m₁ = m₂) :
    rows hs₁ m₁ = rows hs₂ m₂ ∧
    totalBalance (rows hs₁ m₁) = totalBalance (rows hs₂ m₂) ∧
    dayChangeAmount (rows hs₁ m₁) = dayChangeAmount (rows hs₂ m₂) ∧
    dayChangePct (rows hs₁ m₁) = dayChangePct (rows hs₂ m₂) := by
  subst hh hm
  exact ⟨rfl, rfl, rfl, rfl⟩

/-- Witness for C8 at the concrete in-app holdings and the seeded price map. -/
theorem C8_witness :
    rows holdings initialState = rows holdings initialState :=
  (C8_derivation_deterministic holdings holdings initialState initialState rfl rfl).1

/-- Claim C6: handleRefreshPrices raises loadingPrices before the awaited
advance, lowers it unconditionally afterwards (also when advance throws, via
the try/finally), installs the returned map exactly on success, leaves prices
untouched on failure, the refresh controls are disabled exactly while the
flag is set, and the handler itself contains no deduplication: its behaviour
does not depend on the initial value of the flag. -/
theorem C6_refresh_busy_flag (s : UiState) (next : PriceMap) (e : Unit) (b : Bool) :
    (∀ adv, (handleRefreshPrices adv s).1.loadingPrices = true) ∧
    (∀ adv, (handleRefreshPrices adv s).2.loadingPrices = false) ∧
    (handleRefreshPrices (Except.ok next) s).2.prices = next ∧
    (handleRefreshPrices (Except.error e) s).2.prices = s.prices ∧
    refreshButtonDisabled s = s.loadingPrices ∧
    (∀ adv, handleRefreshPrices adv { s with loadingPrices := b }
      = handleRefreshPrices adv s) := by
  refine ⟨?_, ?_, rfl, rfl, rfl, ?_⟩
  · intro adv; cases adv <;> rfl
  · intro adv; cases adv <;> rfl
  · intro adv; cases adv <;> rfl

/-- Claim C2: each derived row takes its price and 24h change from the
snapshot when the symbol is present and 0 when it is missing (the row is
still produced: deriveRow is total), and satisfies the valueNow and
valueChange formulas. -/
theorem C2_derived_row_fields (h : Holding) (m : PriceMap) :
    (∀ p : PricePoint, m.lookup h.symbol = some p →
      (deriveRow m h).priceNow = p.price ∧
      (deriveRow m h).change24hPct = p.change24hPct) ∧
    (m.lookup h.symbol = none →
      (deriveRow m h).priceNow = 0 ∧ (deriveRow m h).change24hPct = 0) ∧
    (deriveRow m h).valueNow = h.amount * (deriveRow m h).priceNow ∧
    (deriveRow m h).valueChange
      = (deriveRow m h).valueNow
        - h.amount * ((deriveRow m h).priceNow / (1 + (deriveRow m h).change24hPct / 100)) := by
  refine ⟨?_, ?_, ?_, ?_⟩
  · intro p hp
    simp [deriveRow, hp]
  · intro hp
    simp [deriveRow, hp]
  · simp [deriveRow]
  · simp [deriveRow]

/-- Witness for C2: the BTC holding against the seeded map (symbol present)
and against the empty map (symbol missing). -/
theorem C2_witness :
    (deriveRow initialState
        { id := "btc", symbol := "BTC", name := "Bitcoin", amount := 0.0523 }).priceNow
      = (1185000 : ℚ) ∧
    (deriveRow []
        { id := "btc", symbol := "BTC", name := "Bitcoin", amount := 0.0523 }).priceNow
      = 0 := by
  constructor
  · exact ((C2_derived_row_fields _ initialState).1
      { symbol := "BTC", price := 1185000, change24hPct := 1.42 }
      (by simp [initialState, List.lookup])).1
  · exact ((C2_derived_row_fields _ []).2.1 rfl).1

/-- Claim C7: when a holding resolves to a price point whose 24h change is
-100, the denominator of the priceYesterday division in deriveRow is 0, so
the derivation performs an unguarded division by zero and the quantity it is
trying to compute is undefined (the guarded variant returns none). -/
theorem C7_unguarded_div_by_zero (h : Holding) (m : PriceMap) (pt : PricePoint)
    (hfind : m.lookup h.symbol = some pt) (hchg : pt.change24hPct = -100) :
    yesterdayDenom (deriveRow m h).change24hPct = 0 ∧
    priceYesterdayChecked (deriveRow m h).priceNow (deriveRow m h).change24hPct = none := by
  have hc : (deriveRow m h).change24hPct = -100 := by
    simp [deriveRow, hfind, hchg]
  have hd : yesterdayDenom (deriveRow m h).change24hPct = 0 := by
    rw [hc]
    norm_num [yesterdayDenom]
  exact ⟨hd, by simp [priceYesterdayChecked, hd]⟩

/-- Witness for C7 at a concrete one-symbol map with 24h change -100. -/
theorem C7_witness :
    yesterdayDenom (deriveRow
        [("DOOM", { symbol := "DOOM", price := 100, change24hPct := -100 })]
        { id := "d", symbol := "DOOM", name := "Doom", amount := 1 }).change24hPct = 0 :=
  (C7_unguarded_div_by_zero _ _
    { symbol := "DOOM", price := 100, change24hPct := -100 }
    (by simp [List.lookup]) rfl).1

/-- Claim C5: refreshMockPrices preserves the key set of any input map, and
since the store is seeded with exactly BTC, ETH, SOL, XRP, every reachable
store state has exactly those four keys. -/
theorem C5_key_set_invariant :
    (∀ (driftPct delta : String → ℚ) (m : PriceMap),
      keys (refreshMockPrices driftPct delta m) = keys m) ∧
    (∀ m : PriceMap, Reachable m → keys m = ["BTC", "ETH", "SOL", "XRP"]) := by
  refine ⟨keys_refreshMockPrices, ?_⟩
  intro m hm
  induction hm with
  | seed => rfl
  | advance driftPct delta hr ih =>
      rw [keys_refreshMockPrices]
      exact ih

/-- Witness for C5 at the seeded initial state. -/
theorem C5_witness : keys initialState = ["BTC", "ETH", "SOL", "XRP"] :=
  C5_key_set_invariant.2 initialState Reachable.seed

/-- Claim C3: totalBalance is the sum of valueNow over the rows,
dayChangeAmount the sum of valueChange, the yesterday accumulator is the sum
of amount times priceYesterday, dayChangePct is 0 when that accumulator is
nonpositive and the relative-change formula otherwise, and on the empty
price map every aggregate is 0 with no division error. -/
theorem C3_portfolio_aggregates (hs : List Holding) (m : PriceMap) :
    totalBalance (rows hs m) = ((rows hs m).map Row.valueNow).sum ∧
    dayChangeAmount (rows hs m) = ((rows hs m).map Row.valueChange).sum ∧
    yesterdayTotal (rows hs m)
      = ((rows hs m).map fun r =>
          r.amount * (r.priceNow / (1 + r.change24hPct / 100))).sum ∧
    (yesterdayTotal (rows hs m) ≤ 0 → dayChangePct (rows hs m) = 0) ∧
    (0 < yesterdayTotal (rows hs m) →
      dayChangePct (rows hs m)
        = (totalBalance (rows hs m) - yesterdayTotal (rows hs m))
            / yesterdayTotal (rows hs m) * 100) ∧
    totalBalance (rows hs []) = 0 ∧
    dayChangeAmount (rows hs []) = 0 ∧
    dayChangePct (rows hs []) = 0 := by
  have sum0 : ∀ f : Row → ℚ, (∀ h : Holding, f (deriveRow [] h) = 0) →
      ((rows hs []).map f).sum = 0 := by
    intro f hf
    apply List.sum_eq_zero
    intro x hx
    simp only [rows, List.map_map, List.mem_map, Function.comp] at hx
    obtain ⟨h, _, rfl⟩ := hx
    exact hf h
  have htb : totalBalance (rows hs []) = 0 := by
    rw [totalBalance, foldl_add_extract, sum0 _ (fun h => by simp [deriveRow])]
    ring
  have hyt : yesterdayTotal (rows hs []) = 0 := by
    rw [yesterdayTotal, foldl_add_extract, sum0 _ (fun h => by simp [deriveRow])]
    ring
  refine ⟨?_, ?_, ?_, ?_, ?_, htb, ?_, ?_⟩
  · rw [totalBalance, foldl_add_extract]; ring
  · rw [dayChangeAmount, foldl_add_extract]; ring
  · rw [yesterdayTotal, foldl_add_extract]; ring
  · intro hle
    simp [dayChangePct, hle]
  · intro hlt
    simp [dayChangePct, hlt.not_le]
  · rw [dayChangeAmount, foldl_add_extract, sum0 _ (fun h => by simp [deriveRow])]
    ring
  · simp [dayChangePct, hyt]

/-- Witness for C3: the in-app holdings against the empty map take the
nonpositive-yesterday branch, and against the seeded map the positive
branch. -/
theorem C3_witness :
    dayChangePct (rows holdings []) = 0 ∧
    dayChangePct (rows holdings initialState)
      = (totalBalance (rows holdings initialState)
          - yesterdayTotal (rows holdings initialState))
          / yesterdayTotal (rows holdings initialState) * 100 := by
  constructor
  · exact (C3_portfolio_aggregates holdings []).2.2.2.2.2.2.2
  · refine (C3_portfolio_aggregates holdings initialState).2.2.2.2.1 ?_
    have hB : initialState.lookup "BTC"
        = some { symbol := "BTC", price := 1185000, change24hPct := 1.42 } := by
      simp [initialState, List.lookup]
    have hE : initialState.lookup "ETH"
        = some { symbol := "ETH", price := 62450, change24hPct := -0.85 } := by
      simp [initialState, List.lookup]
    have hS : initialState.lookup "SOL"
        = some { symbol := "SOL", price := 3250, change24hPct := 3.12 } := by
      simp [initialState, List.lookup]
    have hX : initialState.lookup "XRP"
        = some { symbol := "XRP", price := 11.8, change24hPct := 0.24 } := by
      simp [initialState, List.lookup]
    norm_num [rows, holdings, deriveRow, hB, hE, hS, hX, yesterdayTotal, List.foldl]

/-- Claim C10: the day-change marker renders the clamped percentage, so the
displayed value always lies in the interval from -99 to 999, and whenever
the derived dayChangePct falls outside that interval the displayed value
differs from the derived aggregate. -/
theorem C10_day_change_display_clamped (rs : List Row) :
    (-99 ≤ displayedDayChangePct rs ∧ displayedDayChangePct rs ≤ 999) ∧
    (dayChangePct rs < -99 ∨ 999 < dayChangePct rs →
      displayedDayChangePct rs ≠ dayChangePct rs) := by
  have hlo : (-99 : ℚ) ≤ displayedDayChangePct rs := by
    unfold displayedDayChangePct clamp
    exact le_max_left _ _
  have hhi : displayedDayChangePct rs ≤ 999 := by
    unfold displayedDayChangePct clamp
    exact max_le (by norm_num) (min_le_left _ _)
  refine ⟨⟨hlo, hhi⟩, ?_⟩
  rintro (hout | hout) heq
  · rw [heq] at hlo
    linarith
  · rw [heq] at hhi
    linarith

/-- Witness for C10: a single holding whose 24h change is 2000 percent gives
a derived dayChangePct of 2000, outside the clamp interval, so the display
differs from the aggregate. -/
theorem C10_witness :
    displayedDayChangePct (rows
        [{ id := "x", symbol := "X", name := "X", amount := 1 }]
        [("X", { symbol := "X", price := 100, change24hPct := 2000 })])
      ≠ dayChangePct (rows
        [{ id := "x", symbol := "X", name := "X", amount := 1 }]
        [("X", { symbol := "X", price := 100, change24hPct := 2000 })]) := by
  refine (C10_day_change_display_clamped _).2 (Or.inr ?_)
  norm_num [rows, deriveRow, dayChangePct, yesterdayTotal, totalBalance,
    List.lookup, List.foldl]

/-- Counterexample to claim C1 as stated: with input price 0.5 and a sampled
drift of 1.1 percent, refreshMockPrices returns price 0.51, which is 2
percent away from the input price — outside the claimed plus-or-minus 1.2
percent envelope, because half-up rounding can add up to 0.005 on top of the
drift. -/
theorem C1_counterexample :
    ∃ pt : PricePoint,
      (refreshMockPrices (fun _ => 1.1) (fun _ => 0)
          [("X", { symbol := "X", price := 0.5, change24hPct := 0 })]).lookup "X"
        = some pt ∧
      pt.price = 0.51 ∧
      ¬ |pt.price - 0.5| ≤ 1.2 / 100 * 0.5 := by
  refine ⟨{ symbol := "X"
          , price := round2 (0.5 * (1 + 1.1 / 100))
          , change24hPct := round2 (0 + 0) }, ?_, ?_, ?_⟩
  · rw [lookup_refreshMockPrices]
    simp [List.lookup]
  · norm_num [round2]
  · have hv : round2 (0.5 * (1 + 1.1 / 100)) = 0.51 := by norm_num [round2]
    rw [hv, show (0.51 : ℚ) - 0.5 = 0.01 by norm_num,
      abs_of_pos (by norm_num : (0 : ℚ) < 0.01)]
    norm_num

/-- Claim C1 (amended): for every input map and sampled drift in -1.2 to 1.2
and delta in -0.6 to 0.6 per symbol, the refreshed map carries
price = round2 of oldPrice times (1 + drift/100) and
change = round2 of oldChange plus delta; consequently the new price is
within plus-or-minus 1.2 percent of the input price up to the half-up
rounding error of at most 0.005, the new 24h change is within 0.605 of its
input, and both results have exactly 2 decimal places. -/
theorem C1_advance_drift_bounds (driftPct delta : String → ℚ)
    (state : PriceMap) (sym : String) (current : PricePoint)
    (hfind : state.lookup sym = some current)
    (hd1 : -1.2 ≤ driftPct sym) (hd2 : driftPct sym ≤ 1.2)
    (he1 : -0.6 ≤ delta sym) (he2 : delta sym ≤ 0.6) :
    ∃ pt : PricePoint,
      (refreshMockPrices driftPct delta state).lookup sym = some pt ∧
      pt.price = round2 (current.price * (1 + driftPct sym / 100)) ∧
      pt.change24hPct = round2 (current.change24hPct + delta sym) ∧
      |pt.price - current.price| ≤ 1.2 / 100 * |current.price| + 1 / 200 ∧
      |pt.change24hPct - current.change24hPct| ≤ 0.6 + 1 / 200 ∧
      (∃ k : ℤ, pt.price = (k : ℚ) / 100) ∧
      (∃ k : ℤ, pt.change24hPct = (k : ℚ) / 100) := by
  refine ⟨{ symbol := sym
          , price := round2 (current.price * (1 + driftPct sym / 100))
          , change24hPct := round2 (current.change24hPct + delta sym) },
    ?_, rfl, rfl, ?_, ?_, round2_two_decimals _, round2_two_decimals _⟩
  · rw [lookup_refreshMockPrices, hfind]
    rfl
  · have hd : |driftPct sym| ≤ 1.2 := abs_le.mpr ⟨hd1, hd2⟩
    have hstep : |current.price * (1 + driftPct sym / 100) - current.price|
        ≤ 1.2 / 100 * |current.price| := by
      have hrw : current.price * (1 + driftPct sym / 100) - current.price
          = current.price * driftPct sym / 100 := by ring
      rw [hrw, abs_div, abs_mul]
      have h100 : |(100 : ℚ)| = 100 := by norm_num
      rw [h100, div_le_iff₀ (by norm_num : (0 : ℚ) < 100)]
      calc |current.price| * |driftPct sym|
          ≤ |current.price| * 1.2 := mul_le_mul_of_nonneg_left hd (abs_nonneg _)
        _ = 1.2 / 100 * |current.price| * 100 := by ring
    calc |round2 (current.price * (1 + driftPct sym / 100)) - current.price|
        ≤ |round2 (current.price * (1 + driftPct sym / 100))
            - current.price * (1 + driftPct sym / 100)|
          + |current.price * (1 + driftPct sym / 100) - current.price| :=
          abs_sub_le _ _ _
      _ ≤ 1 / 200 + 1.2 / 100 * |current.price| :=
          add_le_add (abs_round2_sub_le _) hstep
      _ = 1.2 / 100 * |current.price| + 1 / 200 := by ring
  · have hdd : |delta sym| ≤ 0.6 := abs_le.mpr ⟨he1, he2⟩
    calc |round2 (current.change24hPct + delta sym) - current.change24hPct|
        ≤ |round2 (current.change24hPct + delta sym)
            - (current.change24hPct + delta sym)|
          + |current.change24hPct + delta sym - current.change24hPct| :=
          abs_sub_le _ _ _
      _ ≤ 1 / 200 + 0.6 := add_le_add (abs_round2_sub_le _) (by simpa using hdd)
      _ = 0.6 + 1 / 200 := by ring

/-- Witness for C1 at the seeded map, symbol BTC, drift 1 and delta 0.5. -/
theorem C1_witness :
    ∃ pt : PricePoint,
      (refreshMockPrices (fun _ => 1) (fun _ => 0.5) initialState).lookup "BTC"
        = some pt ∧
      pt.price = round2 (1185000 * (1 + (1 : ℚ) / 100)) ∧
      pt.change24hPct = round2 (1.42 + 0.5) ∧
      |pt.price - 1185000| ≤ 1.2 / 100 * |(1185000 : ℚ)| + 1 / 200 ∧
      |pt.change24hPct - 1.42| ≤ 0.6 + 1 / 200 ∧
      (∃ k : ℤ, pt.price = (k : ℚ) / 100) ∧
      (∃ k : ℤ, pt.change24hPct = (k : ℚ) / 100) :=
  C1_advance_drift_bounds (fun _ => 1) (fun _ => 0.5) initialState "BTC"
    { symbol := "BTC", price := 1185000, change24hPct := 1.42 }
    (by simp [initialState, List.lookup]) (by norm_num) (by norm_num)
    (by norm_num) (by norm_num)

/-- Counterexample to claim C4 as stated: for the BTC holding of 0.0523
against price 1185000, the derived valueNow is 61975.50, not the claimed
61990.50 (the product 0.0523 times 1185000 equals 61975.5). -/
theorem C4_counterexample :
    (deriveRow [("BTC", { symbol := "BTC", price := 1185000, change24hPct := 1.42 })]
        { id := "btc", symbol := "BTC", name := "Bitcoin", amount := 0.0523 }).valueNow
      ≠ 61990.5 := by
  simp [deriveRow, List.lookup]
  norm_num

/-- Claim C4 (amended): for the single BTC holding of 0.0523 and the price
point with price 1185000 and 24h change 1.42, the derived row has
valueNow = 61975.50, priceYesterday within 0.1 of 1168408.6, and valueChange
within 0.01 of 867.73. -/
theorem C4_example_row_values :
    (deriveRow [("BTC", { symbol := "BTC", price := 1185000, change24hPct := 1.42 })]
        { id := "btc", symbol := "BTC", name := "Bitcoin", amount := 0.0523 }).valueNow
      = 61975.5 ∧
    |(deriveRow [("BTC", { symbol := "BTC", price := 1185000, change24hPct := 1.42 })]
        { id := "btc", symbol := "BTC", name := "Bitcoin", amount := 0.0523 }).priceNow
      / (1 + (deriveRow [("BTC", { symbol := "BTC", price := 1185000, change24hPct := 1.42 })]
        { id := "btc", symbol := "BTC", name := "Bitcoin", amount := 0.0523 }).change24hPct / 100)
      - 1168408.6| ≤ 1 / 10 ∧
    |(deriveRow [("BTC", { symbol := "BTC", price := 1185000, change24hPct := 1.42 })]
        { id := "btc", symbol := "BTC", name := "Bitcoin", amount := 0.0523 }).valueChange
      - 867.73| ≤ 1 / 100 := by
  refine ⟨?_, ?_, ?_⟩
  · simp [deriveRow, List.lookup]
    norm_num
  · simp [deriveRow, List.lookup]
    rw [abs_le]
    constructor <;> norm_num
  · simp [deriveRow, List.lookup]
    rw [abs_le]
    constructor <;> norm_num
